import Mathlib

/-!
Verification development for the paint-products search application
(`src/app.py`).  The application has two stages: a catalog loader
(`load_paint_catalogs`, lines 24-128) that parses three vendor
spreadsheets into uniform product records, and a search filter
(lines 160-215) that fuzzy-matches query terms against the records.

The embedding below translates the Python source into Lean:

* spreadsheet cell values become the inductive type `Value`
  (`pyNone` is Python `None`, `nan` a missing cell, `num` a numeric
  cell embedded as a rational, `str` a string cell);
* Python truthiness, `pd.notna`, `str(...)`, `.strip()`, `.lower()`,
  `.split()` and `float(...)` are embedded as the executable functions
  `truthy`, `notna`, `pyStr`, `pyStrip`, `pyLower`, `pySplitWs` and
  `parseFloat?` (Python `float` floats are embedded as rationals, so
  infinities are outside the model; `float(...)` string parsing is
  embedded for plain decimal literals, which covers the catalogs'
  data);
* the external fuzzy-matching function `fuzz.token_set_ratio` is kept
  abstract: search definitions take an arbitrary score function
  `String → String → ℕ` as a parameter, since the library is not part
  of this repository and every claim here concerns the filter
  structure around it, not the score values themselves.
-/

namespace PaintApp

/-- A spreadsheet cell value as it appears to the Python code:
`pyNone` is Python `None` (produced by the out-of-range guards),
`nan` is a missing cell (pandas `NaN`), `num` a numeric cell and
`str` a string cell. -/
inductive Value where
  | pyNone
  | nan
  | num (q : ℚ)
  | str (s : String)
deriving DecidableEq

/-- Python truthiness of a cell value: `None` and `0` and `""` are
falsy; note that `NaN` is truthy in Python. -/
def truthy : Value → Bool
  | Value.pyNone => false
  | Value.nan => true
  | Value.num q => !(q == 0)
  | Value.str s => !(s == "")

/-- Embedding of `pd.notna`: false exactly on `None` and `NaN`. -/
def notna : Value → Bool
  | Value.pyNone => false
  | Value.nan => false
  | Value.num _ => true
  | Value.str _ => true

/-- Fractional decimal digits of `r / d` (fuel-bounded long division),
used to render numeric cells the way Python `str` renders floats. -/
def fracDigits : ℕ → ℕ → ℕ → List Char
  | _, _, 0 => []
  | r, d, fuel + 1 =>
    if r == 0 then []
    else Char.ofNat (48 + (r * 10) / d) :: fracDigits ((r * 10) % d) d fuel

/-- Rendering of a numeric cell, embedding Python `str` on floats for
terminating decimals (`str(12.5) = "12.5"`, `str(3.0) = "3.0"`). -/
def ratStr (q : ℚ) : String :=
  (if q.num < 0 then "-" else "") ++ toString (q.num.natAbs / q.den) ++ "." ++
    (if (q.num.natAbs % q.den) == 0 then "0"
     else String.mk (fracDigits (q.num.natAbs % q.den) q.den 20))

/-- Embedding of Python `str(...)` on cell values. -/
def pyStr : Value → String
  | Value.pyNone => "None"
  | Value.nan => "nan"
  | Value.num q => ratStr q
  | Value.str s => s

/-- Strip leading and trailing whitespace characters from a list of
characters; the character-level body of Python `.strip()`. -/
def stripChars (l : List Char) : List Char :=
  ((l.dropWhile Char.isWhitespace).reverse.dropWhile Char.isWhitespace).reverse

/-- Embedding of Python `str.strip()`. -/
def pyStrip (s : String) : String :=
  String.mk (stripChars s.data)

/-- Embedding of Python `str.lower()` (ASCII case folding, which is
all the catalogs and queries use). -/
def pyLower (s : String) : String :=
  String.mk (s.data.map Char.toLower)

/-- Accumulator-based body of Python `str.split()` with no argument:
split on runs of whitespace, dropping empty pieces. -/
def pySplitAux : List Char → List Char → List String
  | [], acc => if acc.isEmpty then [] else [String.mk acc.reverse]
  | c :: cs, acc =>
    if c.isWhitespace then
      if acc.isEmpty then pySplitAux cs [] else String.mk acc.reverse :: pySplitAux cs []
    else pySplitAux cs (c :: acc)

/-- Embedding of Python `str.split()` with no argument. -/
def pySplitWs (s : String) : List String :=
  pySplitAux s.data []

/-- Numeric value of a list of decimal digit characters. -/
def digitsVal (l : List Char) : ℕ :=
  l.foldl (fun a c => a * 10 + (c.toNat - 48)) 0

/-- Parse an unsigned decimal literal (`"12"`, `"12.5"`, `"12."`,
`".5"`), the body of the embedding of Python `float(...)` on strings.
The value is built with `mkRat` so that it evaluates by kernel
reduction. -/
def parseUnsigned (cs : List Char) : Option ℚ :=
  let ip := cs.takeWhile Char.isDigit
  let rest := cs.dropWhile Char.isDigit
  match rest with
  | [] => if ip.isEmpty then none else some (mkRat (digitsVal ip) 1)
  | c :: fr =>
    if c == '.' && fr.all Char.isDigit && !(ip.isEmpty && fr.isEmpty) then
      some (mkRat (digitsVal ip * 10 ^ fr.length + digitsVal fr) (10 ^ fr.length))
    else none

/-- Signed decimal literal parsing. -/
def parseFloatChars : List Char → Option ℚ
  | [] => none
  | c :: rest =>
    if c == '-' then (parseUnsigned rest).map (fun q => -q)
    else if c == '+' then parseUnsigned rest
    else parseUnsigned (c :: rest)

/-- Embedding of Python `float(...)` applied to a string: surrounding
whitespace is ignored, then a signed plain decimal literal is
accepted; anything else raises, modelled as `none`.  (Exponent forms
and `inf`/`nan` literals do not occur in the catalogs.) -/
def parseFloat? (s : String) : Option ℚ :=
  parseFloatChars (pyStrip s).data

/-- Embedding of Python `float(...)` on a cell value: numbers convert
to themselves, strings are parsed, `None` raises (`none` here); `NaN`
never reaches a conversion in the source because it is guarded by
`pd.notna`. -/
def pyFloat? : Value → Option ℚ
  | Value.num q => some q
  | Value.str s => parseFloat? s
  | Value.pyNone => none
  | Value.nan => none

/-- Round the fraction `n / d` (`d > 0`, not necessarily reduced) to
the nearest integer, ties to even — the rounding used by Python's
fixed-point float formatting.  Implemented over `ℤ` only, so that it
evaluates by kernel reduction: with `f = ⌊n / d⌋` the fractional part
is `(n - f * d) / d`, compared against `1 / 2` by cross-multiplying. -/
def roundTiesEven (n d : ℤ) : ℤ :=
  let f := n.fdiv d
  let r2 := 2 * (n - f * d)
  if r2 < d then f
  else if d < r2 then f + 1
  else if f % 2 == 0 then f else f + 1

/-- Embedding of the Python format `f"{x:.2f}"`: the value rounded to
two decimal places (`x * 100` rounded ties-to-even) and rendered with
exactly two fractional digits. -/
def fmt2 (q : ℚ) : String :=
  let c := roundTiesEven (100 * q.num) (q.den : ℤ)
  let n := c.natAbs
  (if c < 0 then "-" else "") ++ toString (n / 100) ++ "." ++
    (if n % 100 < 10 then "0" else "") ++ toString (n % 100)

/-- Price formatting of `app.py` lines 104-110: start from `"N/A"`;
when the cell is not `NaN`/`None` and is not the literal string
`"N/A"`, try `float(price)` and format as a two-decimal pound amount;
if the conversion raises, fall back to `str(price)`. -/
def formatPrice (price : Value) : String :=
  if notna price && !(price == Value.str ("N/A")) then
    match pyFloat? price with
    | some q => "£" ++ fmt2 q
    | none => pyStr price
  else "N/A"

/-- Per-vendor configuration (`catalog_config`, lines 31-51): fixed
column indices for code, description and price, plus optional extra
description columns. -/
structure CatalogConfig where
  code_col : ℕ
  desc_col : ℕ
  extra_cols : List ℕ
  price_col : ℕ
deriving DecidableEq

/-- Akzo: code column A, description column E, price column AO. -/
def akzoConfig : CatalogConfig := ⟨0, 4, [], 40⟩

/-- Crown: code column A, description column E, extra description
columns G and H, price column R. -/
def crownConfig : CatalogConfig := ⟨0, 4, [6, 7], 17⟩

/-- PPG: code column A, description column E, price column P. -/
def ppgConfig : CatalogConfig := ⟨0, 4, [], 15⟩

/-- The fixed vendor configuration, in the source's insertion order. -/
def catalog_config : List (String × CatalogConfig) :=
  [("Akzo", akzoConfig), ("Crown", crownConfig), ("PPG", ppgConfig)]

/-- One sheet of a workbook as pandas presents it: `width` is
`df.shape[1]` and `rows` the rows of `df.iterrows()` (pandas data
frames are rectangular, so each row has length `width`; theorems that
rely on this take it as a hypothesis). -/
structure Sheet where
  width : ℕ
  rows : List (List Value)
deriving DecidableEq

/-- The per-cell extraction guard of lines 87-89: `row.iloc[i] if
i < len(row) else None`. -/
def cellAt (row : List Value) (i : ℕ) : Value :=
  if h : i < row.length then row.get ⟨i, h⟩ else Value.pyNone

/-- Embedding of Python `' '.join(parts)`. -/
def joinSpace : List String → String
  | [] => ""
  | [s] => s
  | s :: rest => s ++ " " ++ joinSpace rest

/-- The extra description parts of lines 92-98: for each configured
extra column in range, the stripped string form of the cell, kept when
the cell is not `NaN`/`None` and the stripped string is non-empty. -/
def extraParts (cfg : CatalogConfig) (row : List Value) : List String :=
  cfg.extra_cols.filterMap (fun i =>
    if i < row.length then
      let e := cellAt row i
      if notna e && !(pyStrip (pyStr e) == "") then some (pyStrip (pyStr e)) else none
    else none)

/-- The description after appending extra columns (lines 88, 92-100):
when there are extra parts, a truthy description becomes
`f"{desc} {' '.join(extra_parts)}"` and a falsy one is replaced by
the joined parts; otherwise the raw cell is kept. -/
def descWithExtras (cfg : CatalogConfig) (row : List Value) : Value :=
  let desc := cellAt row cfg.desc_col
  let ep := extraParts cfg row
  if ep.isEmpty then desc
  else if truthy desc then Value.str (pyStr desc ++ " " ++ joinSpace ep)
  else Value.str (joinSpace ep)

/-- One product row as appended at lines 112-117.  `code` keeps the
raw cell value (replaced by the string `"N/A"` when the cell is
`NaN`/`None`); `product` and `price` are strings. -/
structure ProductRecord where
  code : Value
  product : String
  price : String
  catalog : String
deriving DecidableEq

/-- Processing of one sheet row (lines 86-117): extract code,
description (with extra columns) and price — the price column index
clamped to the sheet width — then keep the row only when the
description is truthy, not `NaN` and strips to a non-empty string. -/
def processRow (cfg : CatalogConfig) (width : ℕ) (row : List Value) (name : String) :
    Option ProductRecord :=
  let code := cellAt row cfg.code_col
  let price := cellAt row (min cfg.price_col (width - 1))
  let desc := descWithExtras cfg row
  if truthy desc && notna desc && !(pyStrip (pyStr desc) == "") then
    some { code := if notna code then code else Value.str ("N/A"),
           product := pyStrip (pyStr desc),
           price := formatPrice price,
           catalog := name }
  else none

/-- All product records of a sheet, in row order. -/
def processSheet (cfg : CatalogConfig) (name : String) (sheet : Sheet) :
    List ProductRecord :=
  sheet.rows.filterMap (fun row => processRow cfg sheet.width row name)

/-- One vendor's loaded catalog (lines 120-123): the records and the
name of the sheet they came from. -/
structure Catalog where
  data : List ProductRecord
  sheet : String
deriving DecidableEq

/-- Sheet selection (lines 60-75): Crown uses the second sheet when
the workbook has more than one sheet; otherwise the first sheet whose
column count strictly exceeds the configured description column is
chosen. -/
def selectSheet (name : String) (cfg : CatalogConfig) (wb : List (String × Sheet)) :
    Option (String × Sheet) :=
  if name == "Crown" && decide (1 < wb.length) then wb.get? 1
  else wb.find? (fun s => decide (cfg.desc_col < s.2.width))

/-- The warning text of line 126, the exception text elided. -/
def warnMsg (name : String) : String :=
  "Could not load " ++ name ++ " catalog"

/-- A vendor's source file as the loader can encounter it: absent on
disk, present but raising during parsing, or a parsed workbook (a
list of named sheets). -/
inductive VendorSource where
  | missing
  | corrupt
  | ok (wb : List (String × Sheet))
deriving DecidableEq

/-- Loading of one vendor (lines 53-126): a missing file fails the
`os.path.exists` check and is skipped silently; a file that raises is
caught by the `except` and produces a warning; otherwise the selected
sheet is processed and a catalog is recorded only when the sheet name
is truthy and at least one product was produced. -/
def loadVendor (name : String) (cfg : CatalogConfig) (src : VendorSource) :
    Option Catalog × List String :=
  match src with
  | VendorSource.missing => (none, [])
  | VendorSource.corrupt => (none, [warnMsg name])
  | VendorSource.ok wb =>
    match selectSheet name cfg wb with
    | some (sn, sheet) =>
      if sn == "" then (none, [])
      else
        let prods := processSheet cfg name sheet
        if prods.isEmpty then (none, []) else (some ⟨prods, sn⟩, [])
    | none => (none, [])

/-- The mapping entry contributed by one vendor: a singleton when a
catalog was produced, nothing otherwise. -/
def entry (n : String) : Option Catalog → List (String × Catalog)
  | some c => [(n, c)]
  | none => []

/-- The whole loader `load_paint_catalogs`: iterate the fixed vendor
configuration, collecting the produced catalogs (insertion order) and
the warnings.  The file system is abstracted as a map from vendor
name to `VendorSource`. -/
def loadPaintCatalogs (srcs : String → VendorSource) :
    List (String × Catalog) × List String :=
  catalog_config.foldl
    (fun acc nc =>
      (acc.1 ++ entry nc.1 (loadVendor nc.1 nc.2 (srcs nc.1)).1,
       acc.2 ++ (loadVendor nc.1 nc.2 (srcs nc.1)).2))
    ([], [])

/-- Point update of a source assignment, used to state how corrupting
or removing a single vendor's file affects the load. -/
def updateSrc (srcs : String → VendorSource) (v : String) (s : VendorSource) :
    String → VendorSource :=
  fun n => if n == v then s else srcs n

/-- Per-term score of a record (lines 178-182): the larger of the
fuzzy score of the term against the lowercased string form of the
code and against the lowercased description.  The external
`fuzz.token_set_ratio` is the abstract parameter `score`. -/
def termScore (score : String → String → ℕ) (r : ProductRecord) (t : String) : ℕ :=
  max (score t (pyLower (pyStr r.code))) (score t (pyLower r.product))

/-- The row's match score (lines 177-186): the minimum over the query
terms of the per-term score, `0` when there are no terms.  Python's
`min` over a generator is the left fold below. -/
def matchScore (score : String → String → ℕ) (terms : List String)
    (r : ProductRecord) : ℕ :=
  match terms with
  | [] => 0
  | t :: ts => ts.foldl (fun m u => min m (termScore score r u)) (termScore score r t)

/-- The filter of line 188: keep the rows whose match score is at
least 50. -/
def filterRows (score : String → String → ℕ) (terms : List String)
    (rows : List ProductRecord) : List ProductRecord :=
  rows.filter (fun r => decide (50 ≤ matchScore score terms r))

/-- Search across all catalogs (lines 173-193): filter each catalog's
rows and concatenate in catalog order. -/
def searchAll (score : String → String → ℕ) (terms : List String)
    (cats : List (String × Catalog)) : List ProductRecord :=
  (cats.map (fun nc => filterRows score terms nc.2.data)).flatten

/-- The vendor filter applied to the combined results (lines
197-201). -/
def applyCatalogFilter (filt : String) (rows : List ProductRecord) :
    List ProductRecord :=
  if filt == "All" then rows else rows.filter (fun r => r.catalog == filt)

/-- The visible outcome of one search submission: nothing rendered
(no query and no button press), the informational prompt, a results
table, or the no-match warning. -/
inductive UIState where
  | noSearch
  | prompt
  | results (rows : List ProductRecord)
  | noMatch
deriving DecidableEq

/-- The submission handler (lines 160-215, reached when catalogs
loaded): a search happens when the query is truthy or the button was
pressed; an empty lowercased query shows the prompt; otherwise the
query is split into terms, all catalogs are searched, and a non-empty
combined result is shown through the vendor filter while an empty one
shows the no-match warning. -/
def searchStep (score : String → String → ℕ) (cats : List (String × Catalog))
    (query : String) (buttonPressed : Bool) (filt : String) : UIState :=
  if !(query == "") || buttonPressed then
    let ql := if query == "" then "" else pyLower query
    if ql == "" then UIState.prompt
    else
      let terms := pySplitWs ql
      let allResults := searchAll score terms cats
      if 0 < allResults.length then UIState.results (applyCatalogFilter filt allResults)
      else UIState.noMatch
  else UIState.noSearch

/-- Modelled from the spec (claim C7's wording, spec section 4.1
"Column indices are clamped to the sheet's actual width"): the
description read with its index clamped to the width rather than
bounds-guarded.  Used only to compare the claimed semantics with
`processRow`. -/
def descWithExtrasClamped (cfg : CatalogConfig) (width : ℕ) (row : List Value) : Value :=
  let desc := cellAt row (min cfg.desc_col (width - 1))
  let ep := extraParts cfg row
  if ep.isEmpty then desc
  else if truthy desc then Value.str (pyStr desc ++ " " ++ joinSpace ep)
  else Value.str (joinSpace ep)

/-- Modelled from the spec (claim C7's wording): row processing with
every configured column index — code, description and price — clamped
to the sheet width before extraction.  Used only to compare the
claimed semantics with `processRow`. -/
def processRowClamped (cfg : CatalogConfig) (width : ℕ) (row : List Value)
    (name : String) : Option ProductRecord :=
  let code := cellAt row (min cfg.code_col (width - 1))
  let price := cellAt row (min cfg.price_col (width - 1))
  let desc := descWithExtrasClamped cfg width row
  if truthy desc && notna desc && !(pyStrip (pyStr desc) == "") then
    some { code := if notna code then code else Value.str ("N/A"),
           product := pyStrip (pyStr desc),
           price := formatPrice price,
           catalog := name }
  else none

/-- Modelled from the spec (claim C8's wording, spec section 4.1
"one vendor uses a fixed second sheet; others use the first sheet
wide enough"): Crown always takes the second sheet, unconditionally.
Used only to compare the claimed semantics with `selectSheet`. -/
def selectSheetClaimed (name : String) (cfg : CatalogConfig)
    (wb : List (String × Sheet)) : Option (String × Sheet) :=
  if name == "Crown" then wb.get? 1
  else wb.find? (fun s => decide (cfg.desc_col < s.2.width))

/-! Concrete inputs used by witnesses and counterexamples. -/

/-- A five-column sheet with one product row. -/
def sheetA : Sheet :=
  ⟨5, [[Value.str ("C1"), Value.nan, Value.nan, Value.nan, Value.str ("Blue paint")]]⟩

/-- A workbook with a single (wide enough) sheet. -/
def wb1 : List (String × Sheet) := [("Only", sheetA)]

/-- A workbook with two sheets. -/
def wb2 : List (String × Sheet) := [("First", sheetA), ("Second", sheetA)]

/-- A sheet whose only row has a blank (missing) description. -/
def sheetBlank : Sheet :=
  ⟨5, [[Value.nan, Value.nan, Value.nan, Value.nan, Value.nan]]⟩

/-- A workbook whose only sheet yields no products. -/
def wbBlank : List (String × Sheet) := [("S", sheetBlank)]

/-- Sources where the Akzo file is missing and the others parse. -/
def srcsNoAkzo : String → VendorSource :=
  fun n => if n == "Akzo" then VendorSource.missing else VendorSource.ok wb1

/-- A two-cell row: the description column (index 4) is out of range. -/
def c7Row : List Value := [Value.str ("C1"), Value.str ("Blue paint")]

/-- A row whose price cell holds the non-numeric string `"POA"`. -/
def rowPOA : List Value :=
  [Value.str ("C1"), Value.nan, Value.nan, Value.nan, Value.str ("Blue paint"),
   Value.str ("POA")]

/-- A row whose price cell holds the number `12.5`. -/
def rowNum : List Value :=
  [Value.str ("C1"), Value.nan, Value.nan, Value.nan, Value.str ("Blue"),
   Value.num (mkRat 25 2)]

/-- The record the loader produces from `rowNum`. -/
def recNum : ProductRecord := ⟨Value.str ("C1"), "Blue", "£12.50", "Akzo"⟩

/-- A row whose price cell is missing. -/
def rowNanPrice : List Value :=
  [Value.str ("C1"), Value.nan, Value.nan, Value.nan, Value.str ("Blue"), Value.nan]

/-- The record the loader produces from `rowNanPrice`. -/
def recNan : ProductRecord := ⟨Value.str ("C1"), "Blue", "N/A", "Akzo"⟩

/-- A row whose description cell is missing. -/
def rowBlank : List Value :=
  [Value.nan, Value.nan, Value.nan, Value.nan, Value.nan]

/-- A concrete stand-in score function for witnesses. -/
def demoScore : String → String → ℕ := fun a b => if a = b then 100 else 0

/-- A record whose description is the single word `blue`. -/
def demoRec : ProductRecord := ⟨Value.str ("X"), "blue", "£1.00", "Akzo"⟩

/-- A score function that matches everything, for the C6
counterexample (the equality it exhibits holds for any score function
once all loaded rows belong to one vendor). -/
def score100 : String → String → ℕ := fun _ _ => 100

/-- A loaded-catalog state containing only Akzo rows. -/
def demoCats : List (String × Catalog) := [("Akzo", ⟨[demoRec], "S"⟩)]

/-! Helper lemmas. -/

@[simp] lemma entry_none (n : String) : entry n none = [] := rfl

@[simp] lemma entry_some (n : String) (c : Catalog) : entry n (some c) = [(n, c)] := rfl

/-- Every element contributed by a vendor's entry carries that
vendor's name. -/
lemma mem_entry_name (n : String) (o : Option Catalog) (p : String × Catalog)
    (h : p ∈ entry n o) : p.1 = n := by
  cases o with
  | none => simp at h
  | some c => simp at h; rw [h]

/-- The only warning a vendor load can emit is its own warning text. -/
lemma loadVendor_warn_mem (name : String) (cfg : CatalogConfig) (src : VendorSource)
    (w : String) (h : w ∈ (loadVendor name cfg src).2) : w = warnMsg name := by
  cases src with
  | missing => simp [loadVendor] at h
  | corrupt => simpa [loadVendor] using h
  | ok wb =>
    rcases hsel : selectSheet name cfg wb with _ | ⟨sn, sheet⟩
    · simp [loadVendor, hsel] at h
    · simp only [loadVendor, hsel] at h
      split at h
      · simp at h
      · split at h <;> simp at h

/-- The loader unfolded over the fixed three-vendor configuration. -/
lemma load_eq (srcs : String → VendorSource) :
    loadPaintCatalogs srcs =
      (entry ("Akzo") (loadVendor ("Akzo") akzoConfig (srcs ("Akzo"))).1 ++
        (entry ("Crown") (loadVendor ("Crown") crownConfig (srcs ("Crown"))).1 ++
          entry ("PPG") (loadVendor ("PPG") ppgConfig (srcs ("PPG"))).1),
       (loadVendor ("Akzo") akzoConfig (srcs ("Akzo"))).2 ++
        ((loadVendor ("Crown") crownConfig (srcs ("Crown"))).2 ++
          (loadVendor ("PPG") ppgConfig (srcs ("PPG"))).2)) := by
  simp [loadPaintCatalogs, catalog_config]

@[simp] lemma updateSrc_eq (srcs : String → VendorSource) (v : String) (s : VendorSource) :
    updateSrc srcs v s v = s := by
  simp [updateSrc]

lemma updateSrc_ne (srcs : String → VendorSource) (v : String) (s : VendorSource)
    (n : String) (h : n ≠ v) : updateSrc srcs v s n = srcs n := by
  simp [updateSrc, h]

/-- Characterisation of a successful row extraction: the kept-row
guard holds and the record is the one built at lines 112-117. -/
lemma processRow_eq_some (cfg : CatalogConfig) (width : ℕ) (row : List Value)
    (name : String) (rec : ProductRecord) :
    processRow cfg width row name = some rec ↔
      (truthy (descWithExtras cfg row) && notna (descWithExtras cfg row) &&
        !(pyStrip (pyStr (descWithExtras cfg row)) == "")) = true ∧
      rec = { code := if notna (cellAt row cfg.code_col) then cellAt row cfg.code_col
                      else Value.str ("N/A"),
              product := pyStrip (pyStr (descWithExtras cfg row)),
              price := formatPrice (cellAt row (min cfg.price_col (width - 1))),
              catalog := name } := by
  simp only [processRow]
  by_cases hg : (truthy (descWithExtras cfg row) && notna (descWithExtras cfg row) &&
      !(pyStrip (pyStr (descWithExtras cfg row)) == "")) = true
  · rw [if_pos hg]
    simp only [hg, true_and, Option.some.injEq]
    exact eq_comm
  · rw [if_neg hg]
    simp [hg]

/-- The price field of any kept row is the formatted price of the
clamped price cell. -/
lemma processRow_price (cfg : CatalogConfig) (width : ℕ) (row : List Value)
    (name : String) (rec : ProductRecord)
    (h : processRow cfg width row name = some rec) :
    rec.price = formatPrice (cellAt row (min cfg.price_col (width - 1))) := by
  rw [processRow_eq_some] at h
  rw [h.2]

/-- The head of `dropWhile p` never satisfies `p`. -/
lemma head_dropWhile_false (p : Char → Bool) (l : List Char) (c : Char)
    (h : (l.dropWhile p).head? = some c) : p c = false := by
  induction l with
  | nil => simp [List.dropWhile] at h
  | cons a t ih =>
    rw [List.dropWhile_cons] at h
    by_cases hp : p a = true
    · exact ih (by simpa [hp] using h)
    · rw [if_neg (by simp [hp])] at h
      simp at h
      subst h
      simpa using hp

/-- A non-empty stripped string contains a non-whitespace character. -/
lemma stripChars_has_nonws (l : List Char) (h : stripChars l ≠ []) :
    ∃ c ∈ stripChars l, c.isWhitespace = false := by
  unfold stripChars at h ⊢
  rcases hn : (((l.dropWhile Char.isWhitespace).reverse).dropWhile Char.isWhitespace) with
    _ | ⟨c, t⟩
  · rw [hn] at h; simp at h
  · refine ⟨c, ?_, ?_⟩
    · simp
    · exact head_dropWhile_false Char.isWhitespace (l.dropWhile Char.isWhitespace).reverse c
        (by rw [hn]; rfl)

/-- Lower bounds of the running minimum computed by the search fold. -/
lemma foldl_min_ge_iff (f : String → ℕ) (c : ℕ) (l : List String) :
    ∀ a : ℕ, c ≤ l.foldl (fun m u => min m (f u)) a ↔ c ≤ a ∧ ∀ u ∈ l, c ≤ f u := by
  induction l with
  | nil => intro a; simp
  | cons u us ih =>
    intro a
    rw [List.foldl_cons, ih (min a (f u))]
    simp only [le_min_iff, List.forall_mem_cons]
    tauto

/-- Every mapping entry of a load comes from one of the three
vendors' own entries. -/
lemma mem_load_entries (srcs : String → VendorSource) (p : String × Catalog)
    (hp : p ∈ (loadPaintCatalogs srcs).1) :
    p ∈ entry ("Akzo") (loadVendor ("Akzo") akzoConfig (srcs ("Akzo"))).1 ∨
    p ∈ entry ("Crown") (loadVendor ("Crown") crownConfig (srcs ("Crown"))).1 ∨
    p ∈ entry ("PPG") (loadVendor ("PPG") ppgConfig (srcs ("PPG"))).1 := by
  rw [load_eq] at hp
  rcases List.mem_append.mp hp with h | h
  · exact Or.inl h
  · rcases List.mem_append.mp h with h | h
    · exact Or.inr (Or.inl h)
    · exact Or.inr (Or.inr h)

/-- Every warning of a load is one of the three vendors' own warning
texts, arising from that vendor's own load. -/
lemma load_warn_cases (srcs : String → VendorSource) (w : String)
    (hw : w ∈ (loadPaintCatalogs srcs).2) :
    (w = warnMsg ("Akzo") ∧ w ∈ (loadVendor ("Akzo") akzoConfig (srcs ("Akzo"))).2) ∨
    (w = warnMsg ("Crown") ∧ w ∈ (loadVendor ("Crown") crownConfig (srcs ("Crown"))).2) ∨
    (w = warnMsg ("PPG") ∧ w ∈ (loadVendor ("PPG") ppgConfig (srcs ("PPG"))).2) := by
  rw [load_eq] at hw
  rcases List.mem_append.mp hw with h | h
  · exact Or.inl ⟨loadVendor_warn_mem _ _ _ _ h, h⟩
  · rcases List.mem_append.mp h with h | h
    · exact Or.inr (Or.inl ⟨loadVendor_warn_mem _ _ _ _ h, h⟩)
    · exact Or.inr (Or.inr ⟨loadVendor_warn_mem _ _ _ _ h, h⟩)

/-- Membership in the filtered rows, for a non-empty term list:
the row is kept exactly when every term's best score reaches 50. -/
lemma mem_filterRows (score : String → String → ℕ) (t : String) (ts : List String)
    (rows : List ProductRecord) (r : ProductRecord) :
    r ∈ filterRows score (t :: ts) rows ↔
      r ∈ rows ∧ ∀ u ∈ t :: ts, 50 ≤ termScore score r u := by
  unfold filterRows
  rw [List.mem_filter]
  simp only [decide_eq_true_eq, matchScore]
  rw [foldl_min_ge_iff]
  simp only [List.forall_mem_cons]

/-! The claims. -/

/-- C1: for every loaded product row and every non-empty query split
on whitespace into lowercased terms, the search keeps the row iff the
minimum over terms of the maximum of the score against the lowercased
code and against the lowercased description is at least 50 — stated
as: every term's maximum reaches 50, which for a non-empty term list
is exactly "the minimum over terms is at least 50".  In particular a
row that fails the threshold for some term is excluded from the
combined results. -/
theorem c1_conjunctive_search (score : String → String → ℕ) (query : String)
    (rows : List ProductRecord) (cats : List (String × Catalog)) (r : ProductRecord)
    (hne : pySplitWs (pyLower query) ≠ []) :
    (r ∈ filterRows score (pySplitWs (pyLower query)) rows ↔
       r ∈ rows ∧ ∀ t ∈ pySplitWs (pyLower query), 50 ≤ termScore score r t) ∧
    ((∃ t ∈ pySplitWs (pyLower query), termScore score r t < 50) →
       r ∉ searchAll score (pySplitWs (pyLower query)) cats) := by
  rcases hq : pySplitWs (pyLower query) with _ | ⟨t, ts⟩
  · exact absurd hq hne
  · constructor
    · exact mem_filterRows score t ts rows r
    · rintro ⟨t0, ht0, hlt⟩ hmem
      unfold searchAll at hmem
      rw [List.mem_flatten] at hmem
      obtain ⟨l, hl, hrl⟩ := hmem
      rw [List.mem_map] at hl
      obtain ⟨nc, _, rfl⟩ := hl
      rw [mem_filterRows] at hrl
      exact absurd (hrl.2 t0 ht0) (by omega)

/-- C1 witness: a record with description `blue` is kept by the
query `Blue` under a concrete score function. -/
theorem c1_conjunctive_search_witness :
    demoRec ∈ filterRows demoScore (pySplitWs (pyLower ("Blue"))) [demoRec] :=
  ((c1_conjunctive_search demoScore ("Blue") [demoRec] [] demoRec (by decide)).1).mpr
    (by decide)

/-- C2: for every row kept by the loader, the price field is the
formatted price of its (clamped) price cell; a numeric price formats
as a two-decimal pound amount — `12.5` as `"£12.50"` — a non-numeric
string price formats as the raw string itself, and a missing price
(`NaN` or `None`) as `"N/A"`. -/
theorem c2_price_formatting (cfg : CatalogConfig) (width : ℕ) (row : List Value)
    (name : String) (rec : ProductRecord)
    (h : processRow cfg width row name = some rec) :
    rec.price = formatPrice (cellAt row (min cfg.price_col (width - 1))) ∧
    (∀ q : ℚ, formatPrice (Value.num q) = "£" ++ fmt2 q) ∧
    fmt2 (mkRat 25 2) = "12.50" ∧
    (∀ s : String, parseFloat? s = none → formatPrice (Value.str s) = s) ∧
    formatPrice Value.nan = "N/A" ∧ formatPrice Value.pyNone = "N/A" := by
  refine ⟨processRow_price cfg width row name rec h, ?_, by decide, ?_, rfl, rfl⟩
  · intro q
    simp [formatPrice, notna, pyFloat?]
  · intro s hs
    by_cases hna : s = "N/A"
    · subst hna; rfl
    · have hb : (Value.str s == Value.str ("N/A")) = false := by
        simp [hna]
      simp [formatPrice, notna, hb, pyFloat?, hs, pyStr]

/-- C2 witness: the loader keeps a concrete row whose price cell is
the number `12.5` and renders it as `£12.50`. -/
theorem c2_price_formatting_witness : fmt2 (mkRat 25 2) = "12.50" :=
  (c2_price_formatting akzoConfig 6 rowNum ("Akzo") recNum (by decide)).2.2.1

/-- C3 counterexample: a kept row whose price cell is the non-numeric
string `POA` gets price field `"POA"`, not the claimed literal
`"N/A"` marker. -/
theorem c3_na_marker_cex :
    processRow akzoConfig 6 rowPOA ("Akzo") =
      some ⟨Value.str ("C1"), "Blue paint", "POA", "Akzo"⟩ ∧
    ("POA" : String) ≠ "N/A" := by
  decide

/-- C3 amended: for every row kept by the loader, if the price cell
is missing (`NaN` or `None`) or is the literal string `"N/A"`, then
the record's price field is `"N/A"`; a non-numeric string price is
instead rendered as its raw string form. -/
theorem c3_na_marker_amended (cfg : CatalogConfig) (width : ℕ) (row : List Value)
    (name : String) (rec : ProductRecord)
    (h : processRow cfg width row name = some rec)
    (hp : cellAt row (min cfg.price_col (width - 1)) = Value.nan ∨
          cellAt row (min cfg.price_col (width - 1)) = Value.pyNone ∨
          cellAt row (min cfg.price_col (width - 1)) = Value.str ("N/A")) :
    rec.price = "N/A" := by
  have hpr := processRow_price cfg width row name rec h
  rcases hp with hp | hp | hp <;> rw [hpr, hp] <;> rfl

/-- C3 amended witness: a concrete kept row with a missing price cell
gets price `"N/A"`. -/
theorem c3_na_marker_amended_witness : recNan.price = "N/A" :=
  c3_na_marker_amended akzoConfig 6 rowNanPrice ("Akzo") recNan (by decide)
    (Or.inl (by decide))

/-- C4: every record the loader produces has a non-empty description
containing a non-whitespace character, and every row whose
description — after appending the configured extra columns — is
missing (`None` or `NaN`), empty, or only whitespace is excluded. -/
theorem c4_nonblank_description (cfg : CatalogConfig) (width : ℕ) (row : List Value)
    (name : String) :
    (∀ rec, processRow cfg width row name = some rec →
       rec.product ≠ "" ∧ ∃ c ∈ rec.product.data, c.isWhitespace = false) ∧
    ((descWithExtras cfg row = Value.pyNone ∨ descWithExtras cfg row = Value.nan ∨
       ∃ s, descWithExtras cfg row = Value.str s ∧ pyStrip s = "") →
      processRow cfg width row name = none) := by
  constructor
  · intro rec h
    rw [processRow_eq_some] at h
    obtain ⟨hg, rfl⟩ := h
    simp only [Bool.and_eq_true, Bool.not_eq_true', beq_eq_false_iff_ne] at hg
    have hne : pyStrip (pyStr (descWithExtras cfg row)) ≠ "" := hg.2
    refine ⟨hne, ?_⟩
    have hl : stripChars (pyStr (descWithExtras cfg row)).data ≠ [] := by
      intro he
      exact hne (by simp [pyStrip, he])
    simpa [pyStrip] using stripChars_has_nonws _ hl
  · intro hbad
    rcases hbad with hd | hd | ⟨s, hd, hstrip⟩
    · simp [processRow, hd, truthy]
    · simp [processRow, hd, truthy, notna]
    · simp [processRow, hd, truthy, notna, pyStr, hstrip]

/-- C4 witness: a concrete row with a missing description is
excluded. -/
theorem c4_nonblank_description_witness :
    processRow akzoConfig 5 rowBlank ("Akzo") = none :=
  (c4_nonblank_description akzoConfig 5 rowBlank ("Akzo")).2 (Or.inr (Or.inl (by decide)))

/-- C5 counterexample: with the Akzo file missing and the other two
vendors loading fine, no warning at all is surfaced (the missing file
fails the `os.path.exists` check and is skipped silently), while the
remaining vendors' catalogs are returned — the claim's "skips that
vendor and surfaces a warning" is false for a missing file. -/
theorem c5_skip_warn_cex :
    (loadPaintCatalogs srcsNoAkzo).2 = [] ∧
    (loadPaintCatalogs srcsNoAkzo).1.map Prod.fst = [("Crown"), ("PPG")] := by
  decide

/-- C5 amended: a vendor whose file fails to parse is skipped with a
warning and contributes no catalog; a vendor whose file is missing is
skipped silently; in both cases the remaining vendors' catalogs are
exactly what they would be otherwise (corrupting a vendor yields the
same catalogs as removing it). -/
theorem c5_skip_warn_amended (srcs : String → VendorSource) (v : String)
    (hv : v ∈ (["Akzo", "Crown", "PPG"] : List String)) :
    (loadPaintCatalogs (updateSrc srcs v VendorSource.corrupt)).1 =
      (loadPaintCatalogs (updateSrc srcs v VendorSource.missing)).1 ∧
    warnMsg v ∈ (loadPaintCatalogs (updateSrc srcs v VendorSource.corrupt)).2 ∧
    (∀ c : Catalog, (v, c) ∉ (loadPaintCatalogs (updateSrc srcs v VendorSource.corrupt)).1) ∧
    warnMsg v ∉ (loadPaintCatalogs (updateSrc srcs v VendorSource.missing)).2 := by
  simp only [List.mem_cons, List.not_mem_nil, or_false] at hv
  rcases hv with rfl | rfl | rfl
  · refine ⟨?_, ?_, ?_, ?_⟩
    · rw [load_eq, load_eq, updateSrc_eq, updateSrc_eq,
          updateSrc_ne srcs ("Akzo") VendorSource.corrupt ("Crown") (by decide),
          updateSrc_ne srcs ("Akzo") VendorSource.corrupt ("PPG") (by decide),
          updateSrc_ne srcs ("Akzo") VendorSource.missing ("Crown") (by decide),
          updateSrc_ne srcs ("Akzo") VendorSource.missing ("PPG") (by decide)]
      rfl
    · rw [load_eq, updateSrc_eq]
      simp [loadVendor]
    · intro c hc
      rcases mem_load_entries _ _ hc with h | h | h
      · rw [updateSrc_eq] at h
        simp [loadVendor] at h
      · exact absurd (show ("Akzo" : String) = "Crown" from mem_entry_name _ _ _ h)
          (by decide)
      · exact absurd (show ("Akzo" : String) = "PPG" from mem_entry_name _ _ _ h)
          (by decide)
    · intro hw
      rcases load_warn_cases _ _ hw with ⟨he, hm⟩ | ⟨he, hm⟩ | ⟨he, hm⟩
      · rw [updateSrc_eq] at hm
        simp [loadVendor] at hm
      · exact absurd he (by decide)
      · exact absurd he (by decide)
  · refine ⟨?_, ?_, ?_, ?_⟩
    · rw [load_eq, load_eq, updateSrc_eq, updateSrc_eq,
          updateSrc_ne srcs ("Crown") VendorSource.corrupt ("Akzo") (by decide),
          updateSrc_ne srcs ("Crown") VendorSource.corrupt ("PPG") (by decide),
          updateSrc_ne srcs ("Crown") VendorSource.missing ("Akzo") (by decide),
          updateSrc_ne srcs ("Crown") VendorSource.missing ("PPG") (by decide)]
      rfl
    · rw [load_eq, updateSrc_eq]
      simp [loadVendor]
    · intro c hc
      rcases mem_load_entries _ _ hc with h | h | h
      · exact absurd (show ("Crown" : String) = "Akzo" from mem_entry_name _ _ _ h)
          (by decide)
      · rw [updateSrc_eq] at h
        simp [loadVendor] at h
      · exact absurd (show ("Crown" : String) = "PPG" from mem_entry_name _ _ _ h)
          (by decide)
    · intro hw
      rcases load_warn_cases _ _ hw with ⟨he, hm⟩ | ⟨he, hm⟩ | ⟨he, hm⟩
      · exact absurd he (by decide)
      · rw [updateSrc_eq] at hm
        simp [loadVendor] at hm
      · exact absurd he (by decide)
  · refine ⟨?_, ?_, ?_, ?_⟩
    · rw [load_eq, load_eq, updateSrc_eq, updateSrc_eq,
          updateSrc_ne srcs ("PPG") VendorSource.corrupt ("Akzo") (by decide),
          updateSrc_ne srcs ("PPG") VendorSource.corrupt ("Crown") (by decide),
          updateSrc_ne srcs ("PPG") VendorSource.missing ("Akzo") (by decide),
          updateSrc_ne srcs ("PPG") VendorSource.missing ("Crown") (by decide)]
      rfl
    · rw [load_eq, updateSrc_eq]
      simp [loadVendor]
    · intro c hc
      rcases mem_load_entries _ _ hc with h | h | h
      · exact absurd (show ("PPG" : String) = "Akzo" from mem_entry_name _ _ _ h)
          (by decide)
      · exact absurd (show ("PPG" : String) = "Crown" from mem_entry_name _ _ _ h)
          (by decide)
      · rw [updateSrc_eq] at h
        simp [loadVendor] at h
    · intro hw
      rcases load_warn_cases _ _ hw with ⟨he, hm⟩ | ⟨he, hm⟩ | ⟨he, hm⟩
      · exact absurd he (by decide)
      · exact absurd he (by decide)
      · rw [updateSrc_eq] at hm
        simp [loadVendor] at hm

/-- C5 amended witness: corrupting the Akzo file surfaces the Akzo
warning. -/
theorem c5_skip_warn_amended_witness :
    warnMsg ("Akzo") ∈
      (loadPaintCatalogs
        (updateSrc (fun _ => VendorSource.missing) ("Akzo") VendorSource.corrupt)).2 :=
  (c5_skip_warn_amended (fun _ => VendorSource.missing) ("Akzo") (by decide)).2.1

/-- C6 counterexample: with a catalog state whose rows all belong to
Akzo, the result of the same query with the vendor filter `Akzo`
equals the result with `All` — a non-empty result set too — so it is
not a strict subset, refuting the claim's universally quantified
strictness. -/
theorem c6_vendor_filter_cex :
    applyCatalogFilter ("Akzo") (searchAll score100 (pySplitWs (pyLower ("blue"))) demoCats) =
      applyCatalogFilter ("All") (searchAll score100 (pySplitWs (pyLower ("blue"))) demoCats) ∧
    searchAll score100 (pySplitWs (pyLower ("blue"))) demoCats = [demoRec] := by
  decide

/-- C6 amended: selecting a single vendor yields a result set that
contains only rows tagged with that vendor and that is a subset — not
necessarily strict — of the result for the same query with the `All`
filter, which returns the combined rows unchanged. -/
theorem c6_vendor_filter_amended (filt : String) (rows : List ProductRecord) :
    (filt ≠ "All" →
      (∀ r ∈ applyCatalogFilter filt rows, r.catalog = filt) ∧
      applyCatalogFilter filt rows ⊆ rows) ∧
    applyCatalogFilter ("All") rows = rows := by
  constructor
  · intro hf
    have hb : (filt == "All") = false := by simp [hf]
    constructor
    · intro r hr
      simp only [applyCatalogFilter, hb, Bool.false_eq_true, if_false,
        List.mem_filter, beq_iff_eq] at hr
      exact hr.2
    · intro r hr
      simp only [applyCatalogFilter, hb, Bool.false_eq_true, if_false,
        List.mem_filter] at hr
      exact hr.1
  · simp [applyCatalogFilter]

/-- C6 amended witness: filtering a one-row Akzo result by `Akzo`
keeps only Akzo-tagged rows. -/
theorem c6_vendor_filter_amended_witness : demoRec.catalog = "Akzo" :=
  ((c6_vendor_filter_amended ("Akzo") [demoRec]).1 (by decide)).1 demoRec (by decide)

/-- C7 counterexample: on a two-cell row under the Akzo configuration
the code drops the row (the description read at index 4 is guarded to
`None`), while the claim's clamp-all-indices semantics would read the
last cell as the description and keep the row — so code and
description indices are not clamped. -/
theorem c7_clamp_cex :
    processRow akzoConfig 2 c7Row ("Akzo") = none ∧
    processRowClamped akzoConfig 2 c7Row ("Akzo") =
      some ⟨Value.str ("C1"), "Blue paint", "Blue paint", "Akzo"⟩ := by
  decide

/-- C7 amended: only the price column index is clamped to the sheet
width (`min price_col (width - 1)`, in bounds for every non-empty
row); the code and description reads are instead bounds-checked,
yielding `None` for any index at or past the end of the row, so no
extraction reads past the end of a row. -/
theorem c7_clamp_amended (cfg : CatalogConfig) (row : List Value) (h : row ≠ []) :
    min cfg.price_col (row.length - 1) < row.length ∧
    ∀ i, row.length ≤ i → cellAt row i = Value.pyNone := by
  constructor
  · have h1 : 0 < row.length := List.length_pos.mpr h
    exact lt_of_le_of_lt (min_le_right _ _) (Nat.sub_lt h1 one_pos)
  · intro i hi
    unfold cellAt
    rw [dif_neg (not_lt.mpr hi)]

/-- C7 amended witness: on a one-cell row the clamped Akzo price
index is in bounds. -/
theorem c7_clamp_amended_witness :
    min akzoConfig.price_col (([Value.nan] : List Value).length - 1) <
      ([Value.nan] : List Value).length :=
  (c7_clamp_amended akzoConfig [Value.nan] (by decide)).1

/-- C8 counterexample: for a Crown workbook with a single (wide
enough) sheet the code falls back to the generic rule and selects the
first sheet, while the claim's fixed-second-sheet semantics selects
nothing. -/
theorem c8_sheet_selection_cex :
    selectSheet ("Crown") crownConfig wb1 = some (("Only"), sheetA) ∧
    selectSheetClaimed ("Crown") crownConfig wb1 = none := by
  decide

/-- C8 amended: Crown is loaded from the fixed second sheet only when
its workbook has more than one sheet; otherwise — and for every other
vendor — the first sheet whose column count strictly exceeds the
configured description column index is used; for a non-Crown vendor
whose workbook has no wide-enough sheet, no catalog is produced. -/
theorem c8_sheet_selection_amended (cfg : CatalogConfig) (wb : List (String × Sheet))
    (name : String) :
    (1 < wb.length → selectSheet ("Crown") cfg wb = wb.get? 1) ∧
    (name ≠ "Crown" ∨ wb.length ≤ 1 →
      selectSheet name cfg wb = wb.find? (fun s => decide (cfg.desc_col < s.2.width))) ∧
    (name ≠ "Crown" →
      wb.find? (fun s => decide (cfg.desc_col < s.2.width)) = none →
      loadVendor name cfg (VendorSource.ok wb) = (none, [])) := by
  refine ⟨?_, ?_, ?_⟩
  · intro h
    simp [selectSheet, h]
  · intro h
    rcases h with h | h
    · simp [selectSheet, h]
    · simp [selectSheet, Nat.not_lt.mpr h]
  · intro hn hf
    have hsel : selectSheet name cfg wb = none := by
      simp [selectSheet, hn, hf]
    simp [loadVendor, hsel]

/-- C8 amended witness: a two-sheet Crown workbook selects the second
sheet. -/
theorem c8_sheet_selection_amended_witness :
    selectSheet ("Crown") crownConfig wb2 = wb2.get? 1 :=
  (c8_sheet_selection_amended crownConfig wb2 ("Crown")).1 (by decide)

/-- C9: a submission with an empty query computes no result rows and
puts the UI in the informational prompt state — by construction a
distinct state from the error, results-table and no-match states. -/
theorem c9_empty_query_prompt (score : String → String → ℕ)
    (cats : List (String × Catalog)) (filt : String) :
    searchStep score cats ("") true filt = UIState.prompt := rfl

/-- C10: a vendor whose workbook parses but whose selected sheet
yields no products contributes no mapping entry and no warning —
exactly the result of a missing file, so the two are
indistinguishable in the loader's output — and when every vendor
produces no catalog the returned mapping is empty. -/
theorem c10_empty_vendor_invisible (name : String) (cfg : CatalogConfig)
    (wb : List (String × Sheet)) (srcs : String → VendorSource) :
    ((∀ pr ∈ selectSheet name cfg wb, processSheet cfg name pr.2 = []) →
      loadVendor name cfg (VendorSource.ok wb) = (none, []) ∧
      loadVendor name cfg (VendorSource.ok wb) = loadVendor name cfg VendorSource.missing) ∧
    ((∀ nc ∈ catalog_config, (loadVendor nc.1 nc.2 (srcs nc.1)).1 = none) →
      (loadPaintCatalogs srcs).1 = []) := by
  constructor
  · intro h
    have hl : loadVendor name cfg (VendorSource.ok wb) = (none, []) := by
      rcases hsel : selectSheet name cfg wb with _ | ⟨sn, sheet⟩
      · simp [loadVendor, hsel]
      · have hp : processSheet cfg name sheet = [] :=
          h (sn, sheet) (by simp [Option.mem_def, hsel])
        simp only [loadVendor, hsel, hp]
        split <;> simp
    exact ⟨hl, by rw [hl]; rfl⟩
  · intro h
    have h1 : (loadVendor ("Akzo") akzoConfig (srcs ("Akzo"))).1 = none :=
      h ("Akzo", akzoConfig) (by simp [catalog_config])
    have h2 : (loadVendor ("Crown") crownConfig (srcs ("Crown"))).1 = none :=
      h ("Crown", crownConfig) (by simp [catalog_config])
    have h3 : (loadVendor ("PPG") ppgConfig (srcs ("PPG"))).1 = none :=
      h ("PPG", ppgConfig) (by simp [catalog_config])
    rw [load_eq]
    rw [h1, h2, h3]
    rfl

/-- C10 witness: a workbook whose only sheet has only blank rows
loads to nothing, silently. -/
theorem c10_empty_vendor_invisible_witness :
    loadVendor ("Akzo") akzoConfig (VendorSource.ok wbBlank) = (none, []) :=
  ((c10_empty_vendor_invisible ("Akzo") akzoConfig wbBlank
      (fun _ => VendorSource.missing)).1
    (by
      intro pr hpr
      have hsel : selectSheet ("Akzo") akzoConfig wbBlank = some (("S"), sheetBlank) := by
        decide
      rw [hsel] at hpr
      simp only [Option.mem_def, Option.some.injEq] at hpr
      subst hpr
      decide)).1

end PaintApp
